import Mathlib

/-!
Verification of the HTTP/SSE method-dispatch gateway of the Zammad MCP
repository (`mcp_zammad/http_server.py`).

The gateway is shallowly embedded: Python values travelling through the
gateway are modelled as plain JSON values (`JVal`); the underlying RPC core
(`self.mcp_server.mcp`, out of scope for the spec) is modelled as an oracle
record of functions (`Core`); Python exceptions are modelled as the
`Except Exc` monad, where the endpoint-level `except Exception` clause is the
final `match` that turns an `Exc` into the error envelope or error event.
Note that FastAPI's `HTTPException` is a subclass of `Exception`, so the
`raise HTTPException(...)` statements inside the `try:` block of `mcp_call`
are caught by the `except Exception` clause of the same function; the model
reflects this by keeping `Exc.http` values inside the same `Except` monad
that the final match consumes.
-/

/-- JSON-like values: the serializable Python values the gateway passes
around (`None`, booleans, integers, strings, lists, dicts). Dicts are
association lists in insertion order, as in Python. -/
inductive JVal where
  | null : JVal
  | bool : Bool → JVal
  | num : Int → JVal
  | str : String → JVal
  | arr : List JVal → JVal
  | obj : List (String × JVal) → JVal

/-- A Python parameter dict (`params`): string keys in insertion order. -/
abbrev Params := List (String × JVal)

/-- Python `d.get(key)`: first binding of `key`, or `none` for Python `None`. -/
def dictGet : Params → String → Option JVal
  | [], _ => none
  | (k, v) :: rest, key => if k = key then some v else dictGet rest key

/-- Python truthiness of a JSON value (`bool(v)`): `None`, `False`, `0`,
`""`, `[]` and `{}` are falsy. -/
def pyTruthy : JVal → Bool
  | .null => false
  | .bool b => b
  | .num n => n != 0
  | .str s => s != ""
  | .arr l => !l.isEmpty
  | .obj l => !l.isEmpty

/-- Python `not x` where `x` may be a missing (`None`) lookup result. -/
def pyFalsy : Option JVal → Bool
  | none => true
  | some v => !pyTruthy v

/-- Python `x or default` on an optional string field: the default is used
when the field is `None` or the empty string (both falsy). -/
def pyOrStr : Option String → String → String
  | none, d => d
  | some s, d => if s = "" then d else s

/-- Python `x or default` on an optional JSON-valued field: the default is
used when the field is `None` or falsy (e.g. an empty dict). -/
def pyOrJ : Option JVal → JVal → JVal
  | none, d => d
  | some v, d => if pyTruthy v then v else d

/-- Tests whether the value is JSON `null` (Python `None`); used to express
field presence in the response envelope, since a pydantic field that was
never assigned and a field assigned `None` are the same value. -/
def isNull : JVal → Bool
  | .null => true
  | _ => false

/-- A field of the response envelope is present when it is not `null`. -/
def present (v : JVal) : Bool := !isNull v

/-- Fuel-indexed worker for `delAll`: the fuel bounds the number of steps
and is irrelevant as long as it is at least the length of the list. -/
def delAllGo (pat : List Char) : Nat → List Char → List Char
  | _, [] => []
  | 0, l => l
  | fuel + 1, c :: cs =>
    if pat ≠ [] ∧ pat.isPrefixOf (c :: cs) then
      delAllGo pat fuel ((c :: cs).drop pat.length)
    else
      c :: delAllGo pat fuel cs

/-- Deletes every occurrence of `pat` from the list, scanning left to right
over non-overlapping matches.  This is the behaviour of Python
`s.replace(old, "")`, the form used at every prefix-stripping site of the
gateway (`method.replace("resources/read/", "")` and its siblings). -/
def delAll (pat l : List Char) : List Char := delAllGo pat l.length l

/-- Python `s.replace(pat, "")` on strings. -/
def pyDeleteAll (s pat : String) : String := ⟨delAll pat.data s.data⟩

/-- Python `s.startswith(pre)`. -/
def pyStartswith (s pre : String) : Bool := pre.data.isPrefixOf s.data

/-- Whether `pat` occurs as a contiguous sublist (Python `pat in s`). -/
def containsSub (pat : List Char) : List Char → Bool
  | [] => pat.isPrefixOf []
  | c :: cs => pat.isPrefixOf (c :: cs) || containsSub pat cs

/-- A Python exception as observed by an `except Exception` clause.
`http s d` is a `fastapi.HTTPException` (a subclass of `Exception`, hence
caught by `except Exception`); every other exception that the gateway can
raise or propagate (`ValueError`, core-level failures) is carried as `err`
together with its `str(e)` rendering. -/
inductive Exc where
  | http : Nat → String → Exc
  | err : String → Exc

/-- Python `str(e)`: starlette's `HTTPException.__str__` renders
`f"\x7bstatus_code\x7d: \x7bdetail\x7d"`; any other exception renders its
message. -/
def excStr : Exc → String
  | .http status detail => toString status ++ ": " ++ detail
  | .err msg => msg

mutual

/-- Python `repr` of a JSON-like value, as interpolated by f-strings for
non-string values.  Faithful for values whose strings contain no quote,
backslash or control characters (the only values the gateway's messages are
ever built from). -/
def pyRepr : JVal → String
  | .null => "None"
  | .bool true => "True"
  | .bool false => "False"
  | .num n => toString n
  | .str s => "\x27" ++ s ++ "\x27"
  | .arr l => "[" ++ pyReprItems l ++ "]"
  | .obj l => "\x7b" ++ pyReprFields l ++ "\x7d"

/-- Comma-separated `repr`s of the items of a Python list. -/
def pyReprItems : List JVal → String
  | [] => ""
  | [v] => pyRepr v
  | v :: rest => pyRepr v ++ ", " ++ pyReprItems rest

/-- Comma-separated `repr`s of the key/value pairs of a Python dict. -/
def pyReprFields : List (String × JVal) → String
  | [] => ""
  | [(k, v)] => "\x27" ++ k ++ "\x27: " ++ pyRepr v
  | (k, v) :: rest => "\x27" ++ k ++ "\x27: " ++ pyRepr v ++ ", " ++ pyReprFields rest

end

/-- Python `str` of a JSON-like value, as interpolated by f-strings:
strings render verbatim, every other value renders as its `repr`. -/
def pyStr : JVal → String
  | .str s => s
  | v => pyRepr v

/-- A tool descriptor as returned by the RPC core's `list_tools`:
`description` and `inputSchema` may be `None` (modelled `none`). -/
structure CoreTool where
  name : String
  description : Option String
  inputSchema : Option JVal

/-- A resource descriptor as returned by the core's `list_resources`. -/
structure CoreResource where
  uri : String
  name : Option String
  description : Option String
  mimeType : Option String

/-- A prompt descriptor as returned by the core's `list_prompts`;
`arguments` is `none` when the attribute is missing (`getattr` default)
or `None`. -/
structure CorePrompt where
  name : String
  description : Option String
  arguments : Option JVal

/-- The value returned by the core's `read_resource`: an object exposing
`mimeType` and `text`, either of which may be `None`. -/
structure CoreContent where
  mimeType : Option String
  text : Option String

/-- A result value from the core's `call_tool` / `get_prompt`: either a
model exposing `model_dump()`, a legacy object exposing `.dict()`, or a
plain value passed through unchanged.  This is the closed set of shapes the
gateway's duck-typed normalization distinguishes. -/
inductive CoreVal where
  | model : JVal → CoreVal
  | dictLike : JVal → CoreVal
  | plain : JVal → CoreVal

/-- The result normalization of `_call_tool` / `_get_prompt`: prefer
`model_dump()`, then `.dict()`, else pass the value through. -/
def normalizeResult : CoreVal → JVal
  | .model d => d
  | .dictLike d => d
  | .plain v => v

/-- The underlying RPC core (`self.mcp_server.mcp`), out of scope for the
gateway's spec and therefore modelled as an oracle: each operation either
returns a value or fails with an exception whose `str` is the given
message. -/
structure Core where
  list_tools : Except String (List CoreTool)
  list_resources : Except String (List CoreResource)
  list_prompts : Except String (List CorePrompt)
  call_tool : JVal → JVal → Except String CoreVal
  read_resource : String → Except String CoreContent
  get_prompt : String → Params → Except String CoreVal

/-- The projection of one core tool descriptor performed inside
`_list_tools`'s loop: `name`, `description or ""`, `inputSchema or \x7b\x7d`. -/
def toolEntry (t : CoreTool) : JVal :=
  .obj [("name", .str t.name),
        ("description", .str (pyOrStr t.description "")),
        ("inputSchema", pyOrJ t.inputSchema (.obj []))]

/-- Adapter `_list_tools`: fetch the core's catalog and project each entry;
a core-level failure propagates uncaught (no `try` in `_list_tools`). -/
def listToolsOp (core : Core) : Except Exc JVal :=
  match core.list_tools with
  | .ok ts => .ok (.obj [("tools", .arr (ts.map toolEntry))])
  | .error e => .error (.err e)

/-- The projection of one core resource descriptor inside `_list_resources`. -/
def resourceEntry (r : CoreResource) : JVal :=
  .obj [("uri", .str r.uri),
        ("name", .str (pyOrStr r.name "")),
        ("description", .str (pyOrStr r.description "")),
        ("mimeType", .str (pyOrStr r.mimeType "text/plain"))]

/-- Adapter `_list_resources`. -/
def listResourcesOp (core : Core) : Except Exc JVal :=
  match core.list_resources with
  | .ok rs => .ok (.obj [("resources", .arr (rs.map resourceEntry))])
  | .error e => .error (.err e)

/-- The projection of one core prompt descriptor inside `_list_prompts`:
`getattr(prompt, "arguments", []) or []` falls back to the empty list when
the attribute is missing or falsy. -/
def promptEntry (p : CorePrompt) : JVal :=
  .obj [("name", .str p.name),
        ("description", .str (pyOrStr p.description "")),
        ("arguments", pyOrJ p.arguments (.arr []))]

/-- Adapter `_list_prompts`. -/
def listPromptsOp (core : Core) : Except Exc JVal :=
  match core.list_prompts with
  | .ok ps => .ok (.obj [("prompts", .arr (ps.map promptEntry))])
  | .error e => .error (.err e)

/-- Adapter `_call_tool`: invoke the core, normalize the result, and re-raise any
core failure as `ValueError(f"Error calling tool ...")`. -/
def callToolOp (core : Core) (tool_name : JVal) (params : JVal) : Except Exc JVal :=
  match core.call_tool tool_name params with
  | .ok r => .ok (normalizeResult r)
  | .error e => .error (.err ("Error calling tool " ++ pyStr tool_name ++ ": " ++ e))

/-- Adapter `_read_resource`: invoke the core and wrap the result as
`\x7bcontents: [\x7buri, mimeType, text\x7d]\x7d`, defaulting `mimeType` to
`"text/plain"` and `text` to `""`; re-raise core failures as `ValueError`. -/
def readResourceOp (core : Core) (resource_uri : String) : Except Exc JVal :=
  match core.read_resource resource_uri with
  | .ok r =>
    .ok (.obj [("contents", .arr [
      .obj [("uri", .str resource_uri),
            ("mimeType", .str (pyOrStr r.mimeType "text/plain")),
            ("text", .str (pyOrStr r.text ""))]])])
  | .error e => .error (.err ("Error reading resource " ++ resource_uri ++ ": " ++ e))

/-- Adapter `_get_prompt`: invoke the core, normalize, re-raise as `ValueError`. -/
def getPromptOp (core : Core) (prompt_name : String) (params : Params) : Except Exc JVal :=
  match core.get_prompt prompt_name params with
  | .ok r => .ok (normalizeResult r)
  | .error e => .error (.err ("Error getting prompt " ++ prompt_name ++ ": " ++ e))

/-- The request body of both endpoints (`MCPRequest`): a method string and
an optional parameter dict. -/
structure MCPRequest where
  method : String
  params : Option Params

/-- The response envelope of the unary endpoint (`MCPResponse`): pydantic
fields with default `None`.  A field assigned `None` and a field left at its
default are the same value, so both serialize to JSON `null`; presence is
therefore `≠ null`. -/
structure MCPResponse where
  result : JVal
  error : JVal

/-- The six capabilities of the gateway. -/
inductive Cap where
  | listTools | listResources | listPrompts | callTool | readResource | getPrompt
deriving DecidableEq

/-- The outcome of the unary endpoint's dispatch chain (`mcp_call`,
lines 99-120): one branch per test of the if/elif chain, in source order.
`missingName` is the `raise HTTPException(400, ...)` branch and `notFound`
the final `raise HTTPException(404, ...)` branch. -/
inductive UnaryRoute where
  | listTools : UnaryRoute
  | listResources : UnaryRoute
  | listPrompts : UnaryRoute
  | callTool : JVal → JVal → UnaryRoute
  | missingName : UnaryRoute
  | readResource : String → UnaryRoute
  | getPrompt : String → Params → UnaryRoute
  | notFound : String → UnaryRoute

/-- The dispatch chain of `mcp_call`, in source order: three literal method
names, the literal `tools/call` (with its `name`-presence check on
`params.get("name")` and `params.get("arguments", \x7b\x7d)` default), then the
two prefix forms (whose dynamic part is `method.replace(prefix, "")`), then
the 404 branch.  Note the chain has no `tools/call/<name>` case. -/
def resolveUnary (req : MCPRequest) : UnaryRoute :=
  if req.method = "tools/list" then .listTools
  else if req.method = "resources/list" then .listResources
  else if req.method = "prompts/list" then .listPrompts
  else if req.method = "tools/call" then
    match dictGet (req.params.getD []) "name" with
    | none => .missingName
    | some v =>
      if pyTruthy v then
        .callTool v ((dictGet (req.params.getD []) "arguments").getD (.obj []))
      else .missingName
  else if pyStartswith req.method "resources/read/" then
    .readResource (pyDeleteAll req.method "resources/read/")
  else if pyStartswith req.method "prompts/get/" then
    .getPrompt (pyDeleteAll req.method "prompts/get/") (req.params.getD [])
  else .notFound req.method

/-- Invoking the capability selected by the unary dispatch chain.  The two
`HTTPException` branches surface as `Exc.http` values inside the same
`Except` monad, because they are raised inside the endpoint's `try:` block. -/
def execUnary (core : Core) : UnaryRoute → Except Exc JVal
  | .listTools => listToolsOp core
  | .listResources => listResourcesOp core
  | .listPrompts => listPromptsOp core
  | .callTool name args => callToolOp core name args
  | .missingName => .error (.http 400 "Missing \x27name\x27 parameter in tools/call")
  | .readResource uri => readResourceOp core uri
  | .getPrompt name params => getPromptOp core name params
  | .notFound m => .error (.http 404 ("Method not found: " ++ m))

/-- The unary endpoint `POST /mcp/call`: the whole body runs inside
`try: ... except Exception as e:`, so every exception — including the
endpoint's own `HTTPException`s — becomes
`MCPResponse(error=\x7b"code": -32603, "message": str(e)\x7d)`, delivered with
HTTP status 200.  Success returns `MCPResponse(result=result)`. -/
def mcp_call (core : Core) (req : MCPRequest) : MCPResponse :=
  match execUnary core (resolveUnary req) with
  | .ok v => { result := v, error := .null }
  | .error e =>
    { result := .null,
      error := .obj [("code", .num (-32603)), ("message", .str (excStr e))] }

/-- The capability a unary dispatch outcome resolved to, if any: the
`missingName` branch belongs to the `tools/call` entry (the router resolved
the call-tool capability and its parameter validation failed). -/
def unaryCap : UnaryRoute → Option Cap
  | .listTools => some .listTools
  | .listResources => some .listResources
  | .listPrompts => some .listPrompts
  | .callTool _ _ => some .callTool
  | .missingName => some .callTool
  | .readResource _ => some .readResource
  | .getPrompt _ _ => some .getPrompt
  | .notFound _ => none

/-- The outcome of `_handle_method`'s dispatch chain (lines 192-208). -/
inductive StreamRoute where
  | listTools : StreamRoute
  | listResources : StreamRoute
  | listPrompts : StreamRoute
  | callToolLegacy : String → Params → StreamRoute
  | readResource : String → StreamRoute
  | getPrompt : String → Params → StreamRoute
  | unknown : String → StreamRoute

/-- The dispatch chain of `_handle_method`, in source order: three literal
method names, then the `tools/call/<name>` legacy prefix form (whose tool
name is `method.replace("tools/call/", "")` and whose arguments are the
whole `params or \x7b\x7d` dict), then the two other prefix forms, then the
`raise ValueError` branch. -/
def resolveHandleMethod (method : String) (params : Option Params) : StreamRoute :=
  if method = "tools/list" then .listTools
  else if method = "resources/list" then .listResources
  else if method = "prompts/list" then .listPrompts
  else if pyStartswith method "tools/call/" then
    .callToolLegacy (pyDeleteAll method "tools/call/") (params.getD [])
  else if pyStartswith method "resources/read/" then
    .readResource (pyDeleteAll method "resources/read/")
  else if pyStartswith method "prompts/get/" then
    .getPrompt (pyDeleteAll method "prompts/get/") (params.getD [])
  else .unknown method

/-- Invoking the capability selected by `_handle_method`'s dispatch chain. -/
def execStream (core : Core) : StreamRoute → Except Exc JVal
  | .listTools => listToolsOp core
  | .listResources => listResourcesOp core
  | .listPrompts => listPromptsOp core
  | .callToolLegacy name params => callToolOp core (.str name) (.obj params)
  | .readResource uri => readResourceOp core uri
  | .getPrompt name params => getPromptOp core name params
  | .unknown m => .error (.err ("Unknown method: " ++ m))

/-- Dispatcher `_handle_method(method, params)`. -/
def handle_method (core : Core) (method : String) (params : Option Params) : Except Exc JVal :=
  execStream core (resolveHandleMethod method params)

/-- The capability a `_handle_method` dispatch outcome resolved to, if any. -/
def streamCap : StreamRoute → Option Cap
  | .listTools => some .listTools
  | .listResources => some .listResources
  | .listPrompts => some .listPrompts
  | .callToolLegacy _ _ => some .callTool
  | .readResource _ => some .readResource
  | .getPrompt _ _ => some .getPrompt
  | .unknown _ => none

/-- The four SSE event names the streaming generator emits. -/
inductive EventType where
  | connected | result | error | done
deriving DecidableEq, BEq

/-- One SSE event, serialized as `event: <type>` plus `data: <json>`. -/
structure SSEEvent where
  type : EventType
  data : JVal

/-- The conversion applied to a `tools/call` result before serialization in
the streaming branch (lines 153-165).  The values reaching this point are
already normalized plain JSON values (`_call_tool` applied
`model_dump`/`dict`), on which every attribute probe of the source fails
and every list item is appended unchanged, so the conversion is the
identity. -/
def streamNormalize (v : JVal) : JVal := v

/-- The terminal `error` event of the generator's `except` clause, carrying
`\x7b"error": \x7b"code": -32603, "message": str(e)\x7d\x7d`. -/
def streamErrorEvent (e : Exc) : SSEEvent :=
  ⟨.error, .obj [("error", .obj [("code", .num (-32603)), ("message", .str (excStr e))])]⟩

/-- The `done` event, carrying `\x7b"status": "completed"\x7d`. -/
def doneEvent : SSEEvent := ⟨.done, .obj [("status", .str "completed")]⟩

/-- The SSE generator of `POST /mcp/stream` (the `generate` coroutine):
the event sequence it yields for a request, given the session identifier
`sid` that `uuid.uuid4()` produced.  The whole body runs inside
`try: ... except Exception`, whose handler yields the terminal `error`
event; the missing-`name` branch yields its own `error` event (a bare
string payload) and returns. -/
def generate (core : Core) (sid : String) (req : MCPRequest) : List SSEEvent :=
  let connected : SSEEvent := ⟨.connected, .obj [("session_id", .str sid)]⟩
  if req.method = "tools/call" then
    match dictGet (req.params.getD []) "name" with
    | none =>
      [connected, ⟨.error, .obj [("error", .str "Missing name parameter in tools/call")]⟩]
    | some v =>
      if pyTruthy v then
        match callToolOp core v ((dictGet (req.params.getD []) "arguments").getD (.obj [])) with
        | .ok r => [connected, ⟨.result, streamNormalize r⟩, doneEvent]
        | .error e => [connected, streamErrorEvent e]
      else
        [connected, ⟨.error, .obj [("error", .str "Missing name parameter in tools/call")]⟩]
  else
    match handle_method core req.method req.params with
    | .ok r => [connected, ⟨.result, r⟩, doneEvent]
    | .error e => [connected, streamErrorEvent e]

/-- Terminal SSE event types: `done` and `error` end a stream. -/
def isTerminal : EventType → Bool
  | .done => true
  | .error => true
  | _ => false

/-- Well-formedness of an SSE event-type sequence, as claimed by the spec:
it begins with exactly one `connected` event, ends with exactly one
terminal event (`done` or `error`), contains at most one `result` event,
and contains no event after the terminal one. -/
def streamOkB (ts : List EventType) : Bool :=
  (ts.head? == some .connected)
  && (ts.count .connected == 1)
  && ((ts.filter isTerminal).length == 1)
  && ((ts.getLast?.map isTerminal).getD false)
  && decide (ts.count .result ≤ 1)
  && ts.dropLast.all (fun t => !isTerminal t)

/-- The six recognized method patterns of the unary dispatch chain, tested
against a method string in source order: four literal names and two
dynamic-suffix forms. -/
def unaryMatch (m : String) : List Bool :=
  [m == "tools/list", m == "resources/list", m == "prompts/list", m == "tools/call",
   pyStartswith m "resources/read/", pyStartswith m "prompts/get/"]

/-- Tests whether exactly one of the envelope's `result`/`error` fields is
present (non-`null`). -/
def exactlyOne (r : MCPResponse) : Bool :=
  (present r.result && !present r.error) || (!present r.result && present r.error)

/-- Tests whether a capability outcome is a success carrying Python `None`. -/
def isOkNull : Except Exc JVal → Bool
  | .ok .null => true
  | _ => false

/-- A concrete core oracle whose catalogs are empty, whose `call_tool` and
`get_prompt` succeed with Python `None`, and whose `read_resource` returns
an object with `mimeType` and `text` both `None`. -/
def coreNull : Core where
  list_tools := .ok []
  list_resources := .ok []
  list_prompts := .ok []
  call_tool := fun _ _ => .ok (.plain .null)
  read_resource := fun _ => .ok ⟨none, none⟩
  get_prompt := fun _ _ => .ok (.plain .null)

/-- A concrete core oracle whose `call_tool` always fails with message
`"boom"`. -/
def coreFail : Core :=
  { coreNull with call_tool := fun _ _ => .error "boom" }

/-- A concrete core oracle exposing one tool descriptor that carries only a
name (`description` and `inputSchema` are `None`). -/
def coreOneTool : Core :=
  { coreNull with list_tools := .ok [⟨"create_ticket", none, none⟩] }

/-- Key list of a JSON object (empty for non-objects). -/
def objKeys : JVal → List String
  | .obj l => l.map Prod.fst
  | _ => []

theorem isPrefixOf_append_self : ∀ (a x : List Char), a.isPrefixOf (a ++ x) = true
  | [], _ => by simp [List.isPrefixOf]
  | c :: cs, x => by
    simp only [List.cons_append, List.isPrefixOf, beq_self_eq_true, Bool.true_and]
    exact isPrefixOf_append_self cs x

theorem isPrefixOf_ex : ∀ {a b : List Char}, a.isPrefixOf b = true → ∃ t, b = a ++ t := by
  intro a
  induction a with
  | nil => intro b _; exact ⟨b, rfl⟩
  | cons c cs ih =>
    intro b h
    cases b with
    | nil => simp [List.isPrefixOf] at h
    | cons d ds =>
      simp only [List.isPrefixOf, Bool.and_eq_true, beq_iff_eq] at h
      obtain ⟨t, ht⟩ := ih h.2
      exact ⟨t, by simp [h.1, ht]⟩

theorem isPrefixOf_app_false : ∀ (a b x : List Char),
    a.isPrefixOf b = false → b.isPrefixOf a = false → a.isPrefixOf (b ++ x) = false := by
  intro a
  induction a with
  | nil => intro b x h1 _; simp [List.isPrefixOf] at h1
  | cons c cs ih =>
    intro b x h1 h2
    cases b with
    | nil => simp [List.isPrefixOf] at h2
    | cons d ds =>
      simp only [List.cons_append, List.isPrefixOf, Bool.and_eq_false_iff] at h1 h2 ⊢
      rcases h1 with h1 | h1
      · left; exact h1
      · rcases h2 with h2 | h2
        · left
          cases hcd : (c == d) with
          | false => rfl
          | true =>
            exfalso
            have : (d == c) = true := by
              simp only [beq_iff_eq] at hcd ⊢; exact hcd.symm
            simp [this] at h2
        · right; exact ih ds x h1 h2

theorem containsSub_app_left (pat : List Char) :
    ∀ (a x : List Char), containsSub pat a = true → containsSub pat (a ++ x) = true := by
  intro a
  induction a with
  | nil =>
    intro x h
    simp only [containsSub] at h
    obtain ⟨t, ht⟩ := isPrefixOf_ex h
    cases pat with
    | nil => cases x <;> simp [containsSub, List.isPrefixOf]
    | cons c cs => simp at ht
  | cons c cs ih =>
    intro x h
    simp only [containsSub, Bool.or_eq_true] at h
    show (pat.isPrefixOf ((c :: cs) ++ x) || containsSub pat (cs ++ x)) = true
    rw [Bool.or_eq_true]
    rcases h with h | h
    · left
      obtain ⟨t, ht⟩ := isPrefixOf_ex h
      rw [ht, List.append_assoc]
      exact isPrefixOf_append_self pat (t ++ x)
    · right; exact ih x h

theorem delAllGo_congr (pat : List Char) :
    ∀ (f g : Nat) (l : List Char), l.length ≤ f → l.length ≤ g →
      delAllGo pat f l = delAllGo pat g l := by
  intro f
  induction f with
  | zero =>
    intro g l hf _
    have : l = [] := List.eq_nil_of_length_eq_zero (Nat.le_zero.mp hf)
    subst this
    cases g <;> rfl
  | succ f ih =>
    intro g l hf hg
    cases l with
    | nil => cases g <;> rfl
    | cons c cs =>
      cases g with
      | zero => simp at hg
      | succ g =>
        rw [delAllGo, delAllGo]
        by_cases h : pat ≠ [] ∧ pat.isPrefixOf (c :: cs) = true
        · rw [if_pos h, if_pos h]
          apply ih
          · have hp : 0 < pat.length := List.length_pos.mpr h.1
            simp only [List.length_drop, List.length_cons]
            simp only [List.length_cons] at hf
            omega
          · have hp : 0 < pat.length := List.length_pos.mpr h.1
            simp only [List.length_drop, List.length_cons]
            simp only [List.length_cons] at hg
            omega
        · rw [if_neg h, if_neg h]
          congr 1
          apply ih
          · simp only [List.length_cons] at hf; omega
          · simp only [List.length_cons] at hg; omega

theorem delAll_cons (pat : List Char) (c : Char) (cs : List Char) :
    delAll pat (c :: cs) =
      if pat ≠ [] ∧ pat.isPrefixOf (c :: cs) then delAll pat ((c :: cs).drop pat.length)
      else c :: delAll pat cs := by
  show delAllGo pat (cs.length + 1) (c :: cs) = _
  rw [delAllGo]
  by_cases h : pat ≠ [] ∧ pat.isPrefixOf (c :: cs) = true
  · rw [if_pos h, if_pos h]
    apply delAllGo_congr
    · have hp : 0 < pat.length := List.length_pos.mpr h.1
      simp only [List.length_drop, List.length_cons]
      omega
    · exact Nat.le_refl _
  · rw [if_neg h, if_neg h]
    rfl

theorem delAll_append_pre (pat : List Char) (hne : pat ≠ []) (l : List Char) :
    delAll pat (pat ++ l) = delAll pat l := by
  cases pat with
  | nil => exact absurd rfl hne
  | cons c cs =>
    show delAll (c :: cs) (c :: (cs ++ l)) = delAll (c :: cs) l
    rw [delAll_cons]
    have hpre : (c :: cs).isPrefixOf (c :: (cs ++ l)) = true :=
      isPrefixOf_append_self (c :: cs) l
    rw [if_pos ⟨hne, hpre⟩]
    congr 1
    simp [List.drop_succ_cons, List.drop_left]

theorem delAll_of_not_contains (pat : List Char) :
    ∀ (l : List Char), containsSub pat l = false → delAll pat l = l := by
  intro l
  induction l with
  | nil => intro _; rfl
  | cons c cs ih =>
    intro h
    simp only [containsSub, Bool.or_eq_false_iff] at h
    rw [delAll_cons, if_neg (by simp [h.1]), ih h.2]

theorem String.data_app (s t : String) : (s ++ t).data = s.data ++ t.data := rfl

theorem app_ne (p r t : String) (h : p.data.isPrefixOf t.data = false) : p ++ r ≠ t := by
  intro he
  have hd : p.data ++ r.data = t.data := by
    rw [← String.data_app, he]
  rw [← hd, isPrefixOf_append_self] at h
  exact Bool.noConfusion h

theorem startswith_app_self (p r : String) : pyStartswith (p ++ r) p = true := by
  unfold pyStartswith
  rw [String.data_app]
  exact isPrefixOf_append_self p.data r.data

theorem startswith_app_false (p b r : String)
    (h1 : p.data.isPrefixOf b.data = false) (h2 : b.data.isPrefixOf p.data = false) :
    pyStartswith (b ++ r) p = false := by
  unfold pyStartswith
  rw [String.data_app]
  exact isPrefixOf_app_false p.data b.data r.data h1 h2

theorem startswith_ex (m p : String) (h : pyStartswith m p = true) : ∃ r, m = p ++ r := by
  unfold pyStartswith at h
  obtain ⟨t, ht⟩ := isPrefixOf_ex h
  exact ⟨⟨t⟩, by apply congrArg String.mk; exact ht⟩

theorem pyDeleteAll_app (p r : String) (hp : p.data ≠ [])
    (h : containsSub p.data r.data = false) : pyDeleteAll (p ++ r) p = r := by
  unfold pyDeleteAll
  rw [String.data_app, delAll_append_pre p.data hp r.data, delAll_of_not_contains p.data r.data h]

theorem startswith_app_ne_true (p b r : String)
    (h1 : p.data.isPrefixOf b.data = false) (h2 : b.data.isPrefixOf p.data = false) :
    ¬ pyStartswith (b ++ r) p = true := by
  rw [startswith_app_false p b r h1 h2]
  exact Bool.false_ne_true

/-- C1: the spec claims `POST /mcp/call` with method `tools/call` and no
`name` in params answers with transport-level HTTP 400.  The code instead
catches its own `HTTPException(400)` in the endpoint's blanket
`except Exception` clause and returns the HTTP 200 envelope below, whose
error message is the stringified exception `400: Missing 'name' parameter
in tools/call`.  This theorem evaluates the endpoint at the failing input:
the missing-name request produces an ordinary error envelope (the model of
an HTTP 200 response), for every core. -/
theorem C1_missing_name_envelope (core : Core) :
    mcp_call core ⟨"tools/call", some []⟩ =
      { result := .null,
        error := .obj [("code", .num (-32603)),
                       ("message", .str "400: Missing \x27name\x27 parameter in tools/call")] } := rfl

/-- C2 counterexample: at the concrete method string
`tools/call/create_ticket`, the unary dispatch chain resolves to no
capability (it falls through to the 404 branch), while the streaming
dispatch chain resolves to the call-tool capability — exactly the opposite
of the claim, which says the legacy form is accepted only on the unary
endpoint. -/
theorem C2_cex :
    unaryCap (resolveUnary ⟨"tools/call/create_ticket", none⟩) = none
    ∧ streamCap (resolveHandleMethod "tools/call/create_ticket" none) = some .callTool :=
  ⟨rfl, rfl⟩

/-- C2 amended: for every method string `tools/call/` ++ name with
non-empty name (not itself containing `tools/call/`), the STREAMING
dispatch chain (`_handle_method`) resolves it to the call-tool capability
with that name and the whole params mapping as arguments, while the unary
dispatch chain does not accept it: it falls through to the unknown-method
(404) branch. -/
theorem C2_legacy_streaming_only (rest : String) (hne : rest ≠ "")
    (hc : containsSub "tools/call/".data rest.data = false) (p : Option Params) :
    resolveUnary ⟨"tools/call/" ++ rest, p⟩ = .notFound ("tools/call/" ++ rest)
    ∧ unaryCap (resolveUnary ⟨"tools/call/" ++ rest, p⟩) = none
    ∧ resolveHandleMethod ("tools/call/" ++ rest) p = .callToolLegacy rest (p.getD [])
    ∧ streamCap (resolveHandleMethod ("tools/call/" ++ rest) p) = some .callTool := by
  have hdel : pyDeleteAll ("tools/call/" ++ rest) "tools/call/" = rest :=
    pyDeleteAll_app "tools/call/" rest (by decide) hc
  have hu : resolveUnary ⟨"tools/call/" ++ rest, p⟩ = .notFound ("tools/call/" ++ rest) := by
    unfold resolveUnary
    rw [if_neg (app_ne "tools/call/" rest "tools/list" (by decide)),
        if_neg (app_ne "tools/call/" rest "resources/list" (by decide)),
        if_neg (app_ne "tools/call/" rest "prompts/list" (by decide)),
        if_neg (app_ne "tools/call/" rest "tools/call" (by decide)),
        if_neg (startswith_app_ne_true "resources/read/" "tools/call/" rest (by decide) (by decide)),
        if_neg (startswith_app_ne_true "prompts/get/" "tools/call/" rest (by decide) (by decide))]
  have hs : resolveHandleMethod ("tools/call/" ++ rest) p = .callToolLegacy rest (p.getD []) := by
    unfold resolveHandleMethod
    rw [if_neg (app_ne "tools/call/" rest "tools/list" (by decide)),
        if_neg (app_ne "tools/call/" rest "resources/list" (by decide)),
        if_neg (app_ne "tools/call/" rest "prompts/list" (by decide)),
        if_pos (startswith_app_self "tools/call/" rest), hdel]
  exact ⟨hu, by rw [hu]; rfl, hs, by rw [hs]; rfl⟩

/-- C2 witness: the amended claim at the concrete name `create_ticket`. -/
theorem C2_legacy_streaming_only_witness :
    resolveUnary ⟨"tools/call/" ++ "create_ticket", none⟩ =
      .notFound ("tools/call/" ++ "create_ticket")
    ∧ unaryCap (resolveUnary ⟨"tools/call/" ++ "create_ticket", none⟩) = none
    ∧ resolveHandleMethod ("tools/call/" ++ "create_ticket") none = .callToolLegacy "create_ticket" []
    ∧ streamCap (resolveHandleMethod ("tools/call/" ++ "create_ticket") none) = some .callTool :=
  C2_legacy_streaming_only "create_ticket" (by decide) (by decide) none

/-- C5 counterexample: `method.replace(prefix, "")` deletes every
occurrence of the prefix, not only the leading one.  At the concrete
method `resources/read/zammad/resources/read/x`, the URI handed to the
read-resource capability is `zammad/x`, which is not the remainder
`zammad/resources/read/x` after the prefix; analogously for
`prompts/get/p/prompts/get/q`. -/
theorem C5_cex :
    resolveUnary ⟨"resources/read/zammad/resources/read/x", none⟩ = .readResource "zammad/x"
    ∧ "zammad/x" ≠ "zammad/resources/read/x"
    ∧ resolveUnary ⟨"prompts/get/p/prompts/get/q", none⟩ = .getPrompt "p/q" []
    ∧ "p/q" ≠ "p/prompts/get/q" :=
  ⟨rfl, by decide, rfl, by decide⟩

/-- C5 amended: for every method of the form `resources/read/` ++ uri
(resp. `prompts/get/` ++ name), the string handed to the invoked
capability is the method string with every occurrence of the prefix
deleted; it equals the remainder after the prefix exactly when the
remainder does not itself contain the prefix as a substring.  Both the
unary chain and `_handle_method` behave this way. -/
theorem C5_prefix_remainder (rest nm : String) (p : Option Params)
    (h1 : containsSub "resources/read/".data rest.data = false)
    (h2 : containsSub "prompts/get/".data nm.data = false) :
    resolveUnary ⟨"resources/read/" ++ rest, p⟩ = .readResource rest
    ∧ resolveHandleMethod ("resources/read/" ++ rest) p = .readResource rest
    ∧ resolveUnary ⟨"prompts/get/" ++ nm, p⟩ = .getPrompt nm (p.getD [])
    ∧ resolveHandleMethod ("prompts/get/" ++ nm) p = .getPrompt nm (p.getD []) := by
  have hdel1 : pyDeleteAll ("resources/read/" ++ rest) "resources/read/" = rest :=
    pyDeleteAll_app "resources/read/" rest (by decide) h1
  have hdel2 : pyDeleteAll ("prompts/get/" ++ nm) "prompts/get/" = nm :=
    pyDeleteAll_app "prompts/get/" nm (by decide) h2
  refine ⟨?_, ?_, ?_, ?_⟩
  · unfold resolveUnary
    rw [if_neg (app_ne "resources/read/" rest "tools/list" (by decide)),
        if_neg (app_ne "resources/read/" rest "resources/list" (by decide)),
        if_neg (app_ne "resources/read/" rest "prompts/list" (by decide)),
        if_neg (app_ne "resources/read/" rest "tools/call" (by decide)),
        if_pos (startswith_app_self "resources/read/" rest), hdel1]
  · unfold resolveHandleMethod
    rw [if_neg (app_ne "resources/read/" rest "tools/list" (by decide)),
        if_neg (app_ne "resources/read/" rest "resources/list" (by decide)),
        if_neg (app_ne "resources/read/" rest "prompts/list" (by decide)),
        if_neg (startswith_app_ne_true "tools/call/" "resources/read/" rest (by decide) (by decide)),
        if_pos (startswith_app_self "resources/read/" rest), hdel1]
  · unfold resolveUnary
    rw [if_neg (app_ne "prompts/get/" nm "tools/list" (by decide)),
        if_neg (app_ne "prompts/get/" nm "resources/list" (by decide)),
        if_neg (app_ne "prompts/get/" nm "prompts/list" (by decide)),
        if_neg (app_ne "prompts/get/" nm "tools/call" (by decide)),
        if_neg (startswith_app_ne_true "resources/read/" "prompts/get/" nm (by decide) (by decide)),
        if_pos (startswith_app_self "prompts/get/" nm), hdel2]
  · unfold resolveHandleMethod
    rw [if_neg (app_ne "prompts/get/" nm "tools/list" (by decide)),
        if_neg (app_ne "prompts/get/" nm "resources/list" (by decide)),
        if_neg (app_ne "prompts/get/" nm "prompts/list" (by decide)),
        if_neg (startswith_app_ne_true "tools/call/" "prompts/get/" nm (by decide) (by decide)),
        if_neg (startswith_app_ne_true "resources/read/" "prompts/get/" nm (by decide) (by decide)),
        if_pos (startswith_app_self "prompts/get/" nm), hdel2]

/-- C5 witness: the amended claim at the concrete remainders
`zammad://ticket/1` and `ticket_summary`. -/
theorem C5_prefix_remainder_witness :
    resolveUnary ⟨"resources/read/" ++ "zammad://ticket/1", none⟩ =
      .readResource "zammad://ticket/1"
    ∧ resolveHandleMethod ("resources/read/" ++ "zammad://ticket/1") none =
      .readResource "zammad://ticket/1"
    ∧ resolveUnary ⟨"prompts/get/" ++ "ticket_summary", none⟩ = .getPrompt "ticket_summary" []
    ∧ resolveHandleMethod ("prompts/get/" ++ "ticket_summary") none =
      .getPrompt "ticket_summary" [] :=
  C5_prefix_remainder "zammad://ticket/1" "ticket_summary" none (by decide) (by decide)

/-- C3: every SSE stream produced by `POST /mcp/stream` — for every core
oracle, session identifier and request — begins with exactly one
`connected` event, ends with exactly one terminal event (`done` on
success, `error` on failure), contains at most one `result` event in
between, and contains no event after the terminal event. -/
theorem C3_stream_lifecycle (core : Core) (sid : String) (req : MCPRequest) :
    streamOkB ((generate core sid req).map SSEEvent.type) = true := by
  unfold generate
  split
  · split
    · rfl
    · split
      · split
        · rfl
        · rfl
      · rfl
  · split
    · rfl
    · rfl

/-- C4: every failure of the unary endpoint — whatever exception the
dispatch or the invoked capability produced — is caught at the endpoint
boundary and converted into the response envelope whose error field is
`\x7bcode: -32603, message: str(e)\x7d`, with `-32603` a negative integer; no
exception propagates past the endpoint (in the model, `mcp_call` is a
total function into envelopes). -/
theorem C4_failures_enveloped (core : Core) (req : MCPRequest) (e : Exc)
    (h : execUnary core (resolveUnary req) = .error e) :
    mcp_call core req =
      { result := .null,
        error := .obj [("code", .num (-32603)), ("message", .str (excStr e))] }
    ∧ (-32603 : Int) < 0 := by
  refine ⟨?_, by norm_num⟩
  unfold mcp_call
  rw [h]

/-- C4 witness: a core whose `call_tool` raises is enveloped with code
`-32603` and the stringified `ValueError` message. -/
theorem C4_failures_enveloped_witness :
    mcp_call coreFail ⟨"tools/call", some [("name", .str "t1")]⟩ =
      { result := .null,
        error := .obj [("code", .num (-32603)),
                       ("message", .str "Error calling tool t1: boom")] }
    ∧ (-32603 : Int) < 0 :=
  C4_failures_enveloped coreFail ⟨"tools/call", some [("name", .str "t1")]⟩
    (.err "Error calling tool t1: boom") rfl

/-- C6 counterexample: when a successfully invoked capability returns
Python `None` — here `coreNull`'s `call_tool` — the envelope is
`MCPResponse(result=None)`, in which neither field is present (both are
`null`), so the claimed "exactly one of result/error present" fails. -/
theorem C6_cex :
    exactlyOne (mcp_call coreNull ⟨"tools/call", some [("name", .str "t1")]⟩) = false := by
  decide

/-- C6 amended: every envelope produced by the unary endpoint has at most
one of `result`/`error` present, and exactly one unless the invoked
capability succeeds with Python `None`, in which case neither field is
present. -/
theorem C6_at_most_one (core : Core) (req : MCPRequest) :
    (present (mcp_call core req).result = false ∨ present (mcp_call core req).error = false)
    ∧ (isOkNull (execUnary core (resolveUnary req)) = false →
        exactlyOne (mcp_call core req) = true) := by
  unfold mcp_call
  cases h : execUnary core (resolveUnary req) with
  | ok v =>
    refine ⟨Or.inr rfl, fun hn => ?_⟩
    cases v with
    | null => simp [isOkNull] at hn
    | bool b => rfl
    | num n => rfl
    | str s => rfl
    | arr l => rfl
    | obj l => rfl
  | error e => exact ⟨Or.inl rfl, fun _ => rfl⟩

/-- C6 witness: on a successful `tools/list` call the envelope has exactly
one field present. -/
theorem C6_at_most_one_witness :
    exactlyOne (mcp_call coreNull ⟨"tools/list", none⟩) = true :=
  (C6_at_most_one coreNull ⟨"tools/list", none⟩).2 (by decide)

/-- C8: for every URI whose read-resource call succeeds, the returned
value is an object whose `contents` list has exactly one element, that
element's `uri` equals the requested URI, its `mimeType` defaults to
`text/plain` when the core omits it, and its `text` defaults to the empty
string when the core omits it. -/
theorem C8_read_resource_shape (core : Core) (uri : String) (r : CoreContent)
    (h : core.read_resource uri = .ok r) :
    readResourceOp core uri = .ok (.obj [("contents", .arr [
      .obj [("uri", .str uri),
            ("mimeType", .str (pyOrStr r.mimeType "text/plain")),
            ("text", .str (pyOrStr r.text ""))]])])
    ∧ (r.mimeType = none → pyOrStr r.mimeType "text/plain" = "text/plain")
    ∧ (r.text = none → pyOrStr r.text "" = "") := by
  refine ⟨?_, fun hm => by rw [hm]; rfl, fun ht => by rw [ht]; rfl⟩
  unfold readResourceOp
  rw [h]

/-- C8 witness: the shape at the concrete URI `zammad://ticket/1` against
a core that omits both optional fields. -/
theorem C8_read_resource_shape_witness :
    readResourceOp coreNull "zammad://ticket/1" = .ok (.obj [("contents", .arr [
      .obj [("uri", .str "zammad://ticket/1"),
            ("mimeType", .str "text/plain"),
            ("text", .str "")]])])
    ∧ ((none : Option String) = none → pyOrStr none "text/plain" = "text/plain")
    ∧ ((none : Option String) = none → pyOrStr none "" = "") :=
  C8_read_resource_shape coreNull "zammad://ticket/1" ⟨none, none⟩ rfl

/-- C9 counterexample: a tool descriptor entry surfaces exactly THREE
projected fields (`name`, `description`, `inputSchema`), not the four the
claim states; shown at the concrete core tool carrying only a name. -/
theorem C9_cex :
    toolEntry ⟨"create_ticket", none, none⟩ =
      .obj [("name", .str "create_ticket"), ("description", .str ""),
            ("inputSchema", .obj [])]
    ∧ (objKeys (toolEntry ⟨"create_ticket", none, none⟩)).length = 3
    ∧ (objKeys (toolEntry ⟨"create_ticket", none, none⟩)).length ≠ 4 :=
  ⟨rfl, rfl, by decide⟩

/-- C9 amended: for every tool descriptor list returned by the core,
every entry of the `tools/list` result surfaces the three projected fields
`name`, `description` and `inputSchema`, defaulting `description` to `""`
and `inputSchema` to the empty mapping when the core supplies only the
name. -/
theorem C9_tool_descriptors (core : Core) (ts : List CoreTool)
    (h : core.list_tools = .ok ts) :
    listToolsOp core = .ok (.obj [("tools", .arr (ts.map toolEntry))])
    ∧ ∀ t ∈ ts,
        objKeys (toolEntry t) = ["name", "description", "inputSchema"]
        ∧ (t.description = none → toolEntry t =
            .obj [("name", .str t.name), ("description", .str ""),
                  ("inputSchema", pyOrJ t.inputSchema (.obj []))])
        ∧ (t.inputSchema = none → toolEntry t =
            .obj [("name", .str t.name),
                  ("description", .str (pyOrStr t.description "")),
                  ("inputSchema", .obj [])]) := by
  constructor
  · unfold listToolsOp
    rw [h]
  · intro t _
    refine ⟨rfl, fun hd => by unfold toolEntry; rw [hd]; rfl, fun hs => by unfold toolEntry; rw [hs]; rfl⟩

/-- C9 witness: the amended claim at a concrete core exposing one tool
that carries only a name. -/
theorem C9_tool_descriptors_witness :
    listToolsOp coreOneTool =
      .ok (.obj [("tools", .arr ([(⟨"create_ticket", none, none⟩ : CoreTool)].map toolEntry))])
    ∧ ∀ t ∈ [(⟨"create_ticket", none, none⟩ : CoreTool)],
        objKeys (toolEntry t) = ["name", "description", "inputSchema"]
        ∧ (t.description = none → toolEntry t =
            .obj [("name", .str t.name), ("description", .str ""),
                  ("inputSchema", pyOrJ t.inputSchema (.obj []))])
        ∧ (t.inputSchema = none → toolEntry t =
            .obj [("name", .str t.name),
                  ("description", .str (pyOrStr t.description "")),
                  ("inputSchema", .obj [])]) :=
  C9_tool_descriptors coreOneTool [⟨"create_ticket", none, none⟩] rfl

/-- C10: on both endpoints, a `tools/call` request whose params bind
`name` to the empty string is treated exactly like one whose params lack
`name`: the unary chain resolves both to the missing-name branch, the
responses and event streams agree across any two cores (so the core's
call-tool capability is never consulted), and the stream is
`connected` followed by the missing-name `error` event. -/
theorem C10_empty_name_like_absent (core core2 : Core) (sid : String) (p q : Params)
    (hp : dictGet p "name" = some (.str "")) (hq : dictGet q "name" = none) :
    resolveUnary ⟨"tools/call", some p⟩ = .missingName
    ∧ resolveUnary ⟨"tools/call", some q⟩ = .missingName
    ∧ mcp_call core ⟨"tools/call", some p⟩ = mcp_call core2 ⟨"tools/call", some q⟩
    ∧ generate core sid ⟨"tools/call", some p⟩ = generate core2 sid ⟨"tools/call", some q⟩
    ∧ (generate core sid ⟨"tools/call", some p⟩).map SSEEvent.type = [.connected, .error] := by
  have hP : resolveUnary ⟨"tools/call", some p⟩ = .missingName := by
    unfold resolveUnary
    rw [if_neg (by decide : ¬("tools/call" : String) = "tools/list"),
        if_neg (by decide : ¬("tools/call" : String) = "resources/list"),
        if_neg (by decide : ¬("tools/call" : String) = "prompts/list"),
        if_pos rfl]
    show (match dictGet p "name" with
      | none => UnaryRoute.missingName
      | some v => if pyTruthy v then
          .callTool v ((dictGet p "arguments").getD (.obj [])) else .missingName) = .missingName
    rw [hp]; rfl
  have hQ : resolveUnary ⟨"tools/call", some q⟩ = .missingName := by
    unfold resolveUnary
    rw [if_neg (by decide : ¬("tools/call" : String) = "tools/list"),
        if_neg (by decide : ¬("tools/call" : String) = "resources/list"),
        if_neg (by decide : ¬("tools/call" : String) = "prompts/list"),
        if_pos rfl]
    show (match dictGet q "name" with
      | none => UnaryRoute.missingName
      | some v => if pyTruthy v then
          .callTool v ((dictGet q "arguments").getD (.obj [])) else .missingName) = .missingName
    rw [hq]
  have hGP : generate core sid ⟨"tools/call", some p⟩ =
      [⟨.connected, .obj [("session_id", .str sid)]⟩,
       ⟨.error, .obj [("error", .str "Missing name parameter in tools/call")]⟩] := by
    unfold generate
    rw [if_pos rfl]
    show (match dictGet p "name" with
      | none =>
        [(⟨.connected, .obj [("session_id", .str sid)]⟩ : SSEEvent),
         ⟨.error, .obj [("error", .str "Missing name parameter in tools/call")]⟩]
      | some v =>
        if pyTruthy v then
          match callToolOp core v ((dictGet p "arguments").getD (.obj [])) with
          | .ok r => [⟨.connected, .obj [("session_id", .str sid)]⟩,
                      ⟨.result, streamNormalize r⟩, doneEvent]
          | .error e => [⟨.connected, .obj [("session_id", .str sid)]⟩, streamErrorEvent e]
        else
          [⟨.connected, .obj [("session_id", .str sid)]⟩,
           ⟨.error, .obj [("error", .str "Missing name parameter in tools/call")]⟩]) = _
    rw [hp]; rfl
  have hGQ : generate core2 sid ⟨"tools/call", some q⟩ =
      [⟨.connected, .obj [("session_id", .str sid)]⟩,
       ⟨.error, .obj [("error", .str "Missing name parameter in tools/call")]⟩] := by
    unfold generate
    rw [if_pos rfl]
    show (match dictGet q "name" with
      | none =>
        [(⟨.connected, .obj [("session_id", .str sid)]⟩ : SSEEvent),
         ⟨.error, .obj [("error", .str "Missing name parameter in tools/call")]⟩]
      | some v =>
        if pyTruthy v then
          match callToolOp core2 v ((dictGet q "arguments").getD (.obj [])) with
          | .ok r => [⟨.connected, .obj [("session_id", .str sid)]⟩,
                      ⟨.result, streamNormalize r⟩, doneEvent]
          | .error e => [⟨.connected, .obj [("session_id", .str sid)]⟩, streamErrorEvent e]
        else
          [⟨.connected, .obj [("session_id", .str sid)]⟩,
           ⟨.error, .obj [("error", .str "Missing name parameter in tools/call")]⟩]) = _
    rw [hq]
  refine ⟨hP, hQ, ?_, ?_, ?_⟩
  · unfold mcp_call
    rw [hP, hQ]
    rfl
  · rw [hGP, hGQ]
  · rw [hGP]
    rfl

/-- C10 witness: the equivalence at the concrete params
`[("name", "")]` and `[]`, across two distinct concrete cores. -/
theorem C10_empty_name_like_absent_witness :
    resolveUnary ⟨"tools/call", some [("name", .str "")]⟩ = .missingName
    ∧ resolveUnary ⟨"tools/call", some []⟩ = .missingName
    ∧ mcp_call coreNull ⟨"tools/call", some [("name", .str "")]⟩ =
        mcp_call coreFail ⟨"tools/call", some []⟩
    ∧ generate coreNull "sid-1" ⟨"tools/call", some [("name", .str "")]⟩ =
        generate coreFail "sid-1" ⟨"tools/call", some []⟩
    ∧ (generate coreNull "sid-1" ⟨"tools/call", some [("name", .str "")]⟩).map SSEEvent.type =
        [.connected, .error] :=
  C10_empty_name_like_absent coreNull coreFail "sid-1" [("name", .str "")] [] rfl rfl

/-- C7: for every method string matching one of the six recognized unary
patterns, the dispatch chain resolves to exactly one capability (the match
count over the pattern list is at most one, and each matching pattern
forces the corresponding capability); for every other method string the
chain falls through to the not-found branch, and the unary endpoint then
returns an HTTP 200 envelope whose error message
`404: Method not found: <m>` contains the words `not found`. -/
theorem C7_router_total (m : String) (p : Option Params) (core : Core) :
    (unaryMatch m).count true ≤ 1
    ∧ (m = "tools/list" → unaryCap (resolveUnary ⟨m, p⟩) = some .listTools)
    ∧ (m = "resources/list" → unaryCap (resolveUnary ⟨m, p⟩) = some .listResources)
    ∧ (m = "prompts/list" → unaryCap (resolveUnary ⟨m, p⟩) = some .listPrompts)
    ∧ (m = "tools/call" → unaryCap (resolveUnary ⟨m, p⟩) = some .callTool)
    ∧ (pyStartswith m "resources/read/" = true →
        unaryCap (resolveUnary ⟨m, p⟩) = some .readResource)
    ∧ (pyStartswith m "prompts/get/" = true →
        unaryCap (resolveUnary ⟨m, p⟩) = some .getPrompt)
    ∧ ((unaryMatch m).count true = 0 →
        resolveUnary ⟨m, p⟩ = .notFound m
        ∧ mcp_call core ⟨m, p⟩ =
            { result := .null,
              error := .obj [("code", .num (-32603)),
                             ("message", .str ("404: Method not found: " ++ m))] }
        ∧ containsSub "not found".data ("404: Method not found: " ++ m).data = true) := by
  have hcount : (unaryMatch m).count true ≤ 1 := by
    by_cases h1 : m = "tools/list"
    · subst h1; decide
    by_cases h2 : m = "resources/list"
    · subst h2; decide
    by_cases h3 : m = "prompts/list"
    · subst h3; decide
    by_cases h4 : m = "tools/call"
    · subst h4; decide
    have e1 : (m == "tools/list") = false := beq_eq_false_iff_ne.mpr h1
    have e2 : (m == "resources/list") = false := beq_eq_false_iff_ne.mpr h2
    have e3 : (m == "prompts/list") = false := beq_eq_false_iff_ne.mpr h3
    have e4 : (m == "tools/call") = false := beq_eq_false_iff_ne.mpr h4
    by_cases h5 : pyStartswith m "resources/read/" = true
    · obtain ⟨r, hr⟩ := startswith_ex m "resources/read/" h5
      have e6 : pyStartswith m "prompts/get/" = false := by
        rw [hr]
        exact startswith_app_false "prompts/get/" "resources/read/" r (by decide) (by decide)
      simp [unaryMatch, List.count_cons, e1, e2, e3, e4, h5, e6]
    · have e5 : pyStartswith m "resources/read/" = false := Bool.eq_false_iff.mpr h5
      by_cases h6 : pyStartswith m "prompts/get/" = true
      · simp [unaryMatch, List.count_cons, e1, e2, e3, e4, e5, h6]
      · have e6 : pyStartswith m "prompts/get/" = false := Bool.eq_false_iff.mpr h6
        simp [unaryMatch, List.count_cons, e1, e2, e3, e4, e5, e6]
  have cap1 : m = "tools/list" → unaryCap (resolveUnary ⟨m, p⟩) = some .listTools := by
    intro h; subst h; rfl
  have cap2 : m = "resources/list" → unaryCap (resolveUnary ⟨m, p⟩) = some .listResources := by
    intro h; subst h; rfl
  have cap3 : m = "prompts/list" → unaryCap (resolveUnary ⟨m, p⟩) = some .listPrompts := by
    intro h; subst h; rfl
  have cap4 : m = "tools/call" → unaryCap (resolveUnary ⟨m, p⟩) = some .callTool := by
    intro h; subst h
    unfold resolveUnary
    rw [if_neg (by decide : ¬("tools/call" : String) = "tools/list"),
        if_neg (by decide : ¬("tools/call" : String) = "resources/list"),
        if_neg (by decide : ¬("tools/call" : String) = "prompts/list"),
        if_pos rfl]
    cases hd : dictGet (p.getD []) "name" with
    | none => rfl
    | some v =>
      show unaryCap (if pyTruthy v then
        UnaryRoute.callTool v ((dictGet (p.getD []) "arguments").getD (.obj []))
        else .missingName) = some .callTool
      by_cases hv : pyTruthy v = true
      · rw [if_pos hv]
        rfl
      · rw [if_neg hv]
        rfl
  have cap5 : pyStartswith m "resources/read/" = true →
      unaryCap (resolveUnary ⟨m, p⟩) = some .readResource := by
    intro h
    obtain ⟨r, hr⟩ := startswith_ex m "resources/read/" h
    subst hr
    unfold resolveUnary
    rw [if_neg (app_ne "resources/read/" r "tools/list" (by decide)),
        if_neg (app_ne "resources/read/" r "resources/list" (by decide)),
        if_neg (app_ne "resources/read/" r "prompts/list" (by decide)),
        if_neg (app_ne "resources/read/" r "tools/call" (by decide)),
        if_pos (startswith_app_self "resources/read/" r)]
    rfl
  have cap6 : pyStartswith m "prompts/get/" = true →
      unaryCap (resolveUnary ⟨m, p⟩) = some .getPrompt := by
    intro h
    obtain ⟨r, hr⟩ := startswith_ex m "prompts/get/" h
    subst hr
    unfold resolveUnary
    rw [if_neg (app_ne "prompts/get/" r "tools/list" (by decide)),
        if_neg (app_ne "prompts/get/" r "resources/list" (by decide)),
        if_neg (app_ne "prompts/get/" r "prompts/list" (by decide)),
        if_neg (app_ne "prompts/get/" r "tools/call" (by decide)),
        if_neg (startswith_app_ne_true "resources/read/" "prompts/get/" r (by decide) (by decide)),
        if_pos (startswith_app_self "prompts/get/" r)]
    rfl
  refine ⟨hcount, cap1, cap2, cap3, cap4, cap5, cap6, ?_⟩
  intro h0
  have hmem : true ∉ unaryMatch m := List.count_eq_zero.mp h0
  have n1 : ¬ m = "tools/list" := fun he => hmem (by simp [unaryMatch, he])
  have n2 : ¬ m = "resources/list" := fun he => hmem (by simp [unaryMatch, he])
  have n3 : ¬ m = "prompts/list" := fun he => hmem (by simp [unaryMatch, he])
  have n4 : ¬ m = "tools/call" := fun he => hmem (by simp [unaryMatch, he])
  have n5 : pyStartswith m "resources/read/" = false := by
    cases hb : pyStartswith m "resources/read/" with
    | false => rfl
    | true => exact absurd (by simp [unaryMatch, hb] : true ∈ unaryMatch m) hmem
  have n6 : pyStartswith m "prompts/get/" = false := by
    cases hb : pyStartswith m "prompts/get/" with
    | false => rfl
    | true => exact absurd (by simp [unaryMatch, hb] : true ∈ unaryMatch m) hmem
  have hroute : resolveUnary ⟨m, p⟩ = .notFound m := by
    unfold resolveUnary
    rw [if_neg n1, if_neg n2, if_neg n3, if_neg n4,
        if_neg (by simp [n5]), if_neg (by simp [n6])]
  refine ⟨hroute, ?_, ?_⟩
  · unfold mcp_call
    rw [hroute]
    rfl
  · rw [String.data_app]
    exact containsSub_app_left "not found".data "404: Method not found: ".data m.data (by decide)

/-- C7 witness: the unknown method `unknown/x` resolves to the not-found
branch and the endpoint's error message contains `not found`. -/
theorem C7_router_total_witness :
    resolveUnary ⟨"unknown/x", none⟩ = .notFound "unknown/x"
    ∧ mcp_call coreNull ⟨"unknown/x", none⟩ =
        { result := .null,
          error := .obj [("code", .num (-32603)),
                         ("message", .str ("404: Method not found: " ++ "unknown/x"))] }
    ∧ containsSub "not found".data ("404: Method not found: " ++ "unknown/x").data = true :=
  (C7_router_total "unknown/x" none coreNull).2.2.2.2.2.2.2 (by decide)
